import Mathlib

/-!
Shallow embedding of `py_zerox/zerox/models/openai.py` (the `OpenAI`
completion client) and proofs about its behaviour.

Python dictionaries are modelled as insertion-ordered association lists
(`Dict`); JSON-like Python values (the values stored in parameter dicts,
message dicts and parsed response bodies) are modelled by the inductive
type `Json`.  Exceptions are modelled with `Except ZeroxError`.  External
collaborators (the image encoder `encode_image_to_base64`, the process
environment read by `os.getenv`, and the HTTP transport used by
`aiohttp`) are passed in as function parameters, exactly in the places the
source calls out to them.
-/

/-- A JSON-like Python value: the payloads stored in message dicts,
parameter dicts and parsed HTTP response bodies. -/
inductive Json where
  | null : Json
  | bool (b : Bool) : Json
  | num (n : Int) : Json
  | str (s : String) : Json
  | arr (xs : List Json) : Json
  | obj (kvs : List (String × Json)) : Json

/-- A Python `dict` with string keys, as an insertion-ordered association
list. -/
abbrev Dict := List (String × Json)

/-- Python `d[k]` / `k in d` lookup: the value of the first entry whose key
is `k` (a Python dict holds each key at most once, so "first" is exact). -/
def dlookup (d : Dict) (k : String) : Option Json :=
  match d with
  | [] => none
  | (k₁, v) :: rest => if k₁ = k then some v else dlookup rest k

/-- Python dict unpacking merge, as in the source line
`return {**OpenAI.DEFAULT_LLM_PARAMS, **params}`: the entries of `a` in
order with values overridden by `b` where `b` has the key, followed by the
entries of `b` whose keys are absent from `a`. -/
def dictMerge (a b : Dict) : Dict :=
  a.map (fun kv => (kv.1, (dlookup b kv.1).getD kv.2)) ++
    b.filter (fun kv => (dlookup a kv.1).isNone)

/-- Source `OpenAI.DEFAULT_LLM_PARAMS`: the fixed default parameter set. -/
def DEFAULT_LLM_PARAMS : Dict :=
  [("max_tokens", Json.num 1000),
   ("temperature", Json.num 0),
   ("top_p", Json.num 1),
   ("frequency_penalty", Json.num 0),
   ("presence_penalty", Json.num 0)]

/-- Source `valid_keys = set(OpenAI.DEFAULT_LLM_PARAMS.keys())`. -/
def valid_keys : List String := DEFAULT_LLM_PARAMS.map Prod.fst

/-- The classified errors the module raises.  In Python they are exception
objects; we carry their distinguishing data structurally.
`missingApiKey` is `MissingOpenAIAPIKeyException`; `invalidLLMParams` is
`InvalidLLMParamsException` with its message; `nonSuccessResponse` is the
`Exception` raised on a non-200 status, carrying the status code and the
parsed body it formats into its message; `encodeImageError` is any failure
propagating out of the external image encoder; `malformedResponse` is the
key-lookup failure on a 200 body missing an expected field;
`completionError` is the generic wrapper `Exception` raised by
`completion`, carrying its formatted message. -/
inductive ZeroxError where
  | missingApiKey : ZeroxError
  | invalidLLMParams (msg : String) : ZeroxError
  | nonSuccessResponse (status : Nat) (data : Json) : ZeroxError
  | encodeImageError (msg : String) : ZeroxError
  | malformedResponse : ZeroxError
  | completionError (msg : String) : ZeroxError

/-- Source `invalid_keys = set(params.keys()) - valid_keys`, relative to an
arbitrary defaults dict (the source always passes `DEFAULT_LLM_PARAMS`).
The Python value is a set; we carry its elements as a duplicate-free list,
in a deterministic order derived from the insertion order of `params`. -/
def invalid_keys_of (defaults params : Dict) : List String :=
  ((params.map Prod.fst).filter
      (fun k => !((defaults.map Prod.fst).contains k))).dedup

/-- Source `OpenAI.validate_llm_params`: reject any key outside
`valid_keys` with an `InvalidLLMParamsException` naming all offending keys
comma-joined, otherwise merge the candidate over the defaults. -/
def validate_llm_params (params : Dict) : Except ZeroxError Dict :=
  let invalid := invalid_keys_of DEFAULT_LLM_PARAMS params
  if invalid = [] then
    Except.ok (dictMerge DEFAULT_LLM_PARAMS params)
  else
    Except.error (ZeroxError.invalidLLMParams
      ("Invalid LLM parameters: " ++ String.intercalate ", " invalid))

/-- Source `OpenAI._system_prompt`: the fixed triple-quoted instruction
string, including its leading newline and indentation. -/
def system_prompt : String :=
  "\n    Convert the following PDF page to markdown.\n    Return only the markdown with no explanation text.\n    Do not exclude any content from the page.\n    "

/-- The f-string content of the optional second system message in
`_prepare_messages`, with `prior_page` spliced in verbatim. -/
def maintain_format_content (prior_page : String) : String :=
  "Markdown must maintain consistent formatting with the following page: \n\n \"\"\"" ++ prior_page ++ "\"\"\""

/-- The user message appended at the end of `_prepare_messages`: a single
`image_url` content part referencing the base64 data URI. -/
def user_image_message (base64_image : String) : Json :=
  Json.obj
    [("role", Json.str "user"),
     ("content", Json.arr
       [Json.obj
         [("type", Json.str "image_url"),
          ("image_url", Json.obj
            [("url", Json.str ("data:image/png;base64," ++ base64_image))])]])]

/-- Source `OpenAI._prepare_messages`.  The external collaborator
`encode_image_to_base64` is passed in as `encode`; its failure propagates.
The second system message is appended exactly when `maintain_format` holds
and `prior_page` is truthy, i.e. non-empty.  Note the source awaits the
image encoding only after building the system messages. -/
def prepare_messages (encode : String → Except ZeroxError String)
    (image_path : String) (maintain_format : Bool) (prior_page : String) :
    Except ZeroxError (List Json) :=
  let messages : List Json :=
    [Json.obj [("role", Json.str "system"), ("content", Json.str system_prompt)]]
  let messages :=
    if maintain_format ∧ prior_page ≠ "" then
      messages ++
        [Json.obj [("role", Json.str "system"),
                   ("content", Json.str (maintain_format_content prior_page))]]
    else messages
  match encode image_path with
  | Except.error e => Except.error e
  | Except.ok base64_image =>
      Except.ok (messages ++ [user_image_message base64_image])

/-- An outgoing HTTP request as `aiohttp` sees it: URL, JSON body
(the `json=` argument) and headers. -/
structure HttpRequest where
  url : String
  body : Json
  headers : List (String × String)

/-- An incoming HTTP response: the status code and the JSON-parsed body
(the source parses `await response.json()` before checking the status). -/
structure HttpResponse where
  status : Nat
  data : Json

/-- The single request `_make_request` builds: POST to the fixed
chat-completions URL, JSON body holding exactly `messages` and `model`
(the `**llm_params` line is commented out in the source), bearer-token
authorization and JSON content type. -/
def openai_request (api_key : String) (messages : List Json) (model : String) :
    HttpRequest :=
  { url := "https://api.openai.com/v1/chat/completions",
    body := Json.obj [("messages", Json.arr messages), ("model", Json.str model)],
    headers := [("Authorization", "Bearer " ++ api_key),
                ("Content-Type", "application/json")] }

/-- Python `j["k"]` on a parsed JSON object; `none` models the `KeyError`
raised when the key is absent or the value is not an object. -/
def Json.getField : Json → String → Option Json
  | Json.obj kvs, k => dlookup kvs k
  | _, _ => none

/-- Python `j[i]` on a parsed JSON array; `none` models the `IndexError`
raised when the index is out of range or the value is not an array. -/
def Json.getIdx : Json → Nat → Option Json
  | Json.arr xs, i => xs[i]?
  | _, _ => none

/-- Source `OpenAI._make_request`: issue the one request through the
transport, raise on a non-200 status (carrying the status code and the
parsed body), otherwise extract `choices[0].message.content`,
`usage.prompt_tokens` and `usage.completion_tokens`; a missing field is
the malformed-response key-lookup failure. -/
def make_request (transport : HttpRequest → HttpResponse)
    (api_key : String) (messages : List Json) (model : String) :
    Except ZeroxError (Json × Json × Json) :=
  let response := transport (openai_request api_key messages model)
  let data := response.data
  if response.status ≠ 200 then
    Except.error (ZeroxError.nonSuccessResponse response.status data)
  else
    match ((data.getField "choices").bind (fun c => c.getIdx 0)
             |>.bind (fun c => c.getField "message")
             |>.bind (fun c => c.getField "content"),
           (data.getField "usage").bind (fun u => u.getField "prompt_tokens"),
           (data.getField "usage").bind (fun u => u.getField "completion_tokens")) with
    | (some content, some input_tokens, some output_tokens) =>
        Except.ok (content, input_tokens, output_tokens)
    | _ => Except.error ZeroxError.malformedResponse

/-- Source `OpenAI.get_api_key`: take the explicit argument when it is not
`None`, otherwise `os.getenv("OPENAI_API_KEY")` (modelled by the `env`
parameter), and raise `MissingOpenAIAPIKeyException` only when both are
`None`.  The source never tests for emptiness, only for `None`. -/
def get_api_key (env : String → Option String) (api_key : Option String) :
    Except ZeroxError String :=
  let api_key :=
    match api_key with
    | none => env "OPENAI_API_KEY"
    | some k => some k
  match api_key with
  | none => Except.error ZeroxError.missingApiKey
  | some k => Except.ok k

/-- Modelled from the spec: the error message catalog
`zerox.constants.messages.Messages` is part of this repository but not
under `src/`; the spec describes it as purely presentational formatting of
human-readable error strings.  `OPENAI_COMPLETION_ERROR.format(err)`
embeds the message of the underlying cause verbatim. -/
def OPENAI_COMPLETION_ERROR (cause : String) : String :=
  "Error in OpenAI completion: " ++ cause

/-- A compact rendering of a `Json` value into the string a Python error
message would embed; only used to give each structured error a message. -/
def Json.render : Json → String
  | Json.null => "None"
  | Json.bool b => if b then "True" else "False"
  | Json.num n => toString n
  | Json.str s => "\x27" ++ s ++ "\x27"
  | Json.arr xs => "[" ++ String.intercalate ", " (xs.attach.map (fun x => x.1.render)) ++ "]"
  | Json.obj kvs => "\x7b" ++ String.intercalate ", " (kvs.attach.map (fun kv => "\x27" ++ kv.1.1 ++ "\x27: " ++ kv.1.2.render)) ++ "\x7d"
decreasing_by
  all_goals simp_wf
  · have h := List.sizeOf_lt_of_mem x.2
    omega
  · have h1 := List.sizeOf_lt_of_mem kv.2
    have h2 : sizeOf kv.1.2 < sizeOf kv.1 := by
      rcases kv.1 with ⟨k, v⟩
      simp only [Prod.mk.sizeOf_spec]
      omega
    omega

/-- Modelled from the spec: `Messages.OPENAI_NON_200_RESPONSE`, from the
same missing catalog module, formats the status code and the full parsed
body into the raised message. -/
def OPENAI_NON_200_RESPONSE (status_code : Nat) (data : Json) : String :=
  "Error in OpenAI API response. Status code: " ++ toString status_code ++
    ", Data: " ++ data.render

/-- The message of each modelled exception, as Python `format(err)` /
`str(err)` would render it. -/
def errMessage : ZeroxError → String
  | ZeroxError.missingApiKey => "OpenAI API key is missing."
  | ZeroxError.invalidLLMParams m => m
  | ZeroxError.nonSuccessResponse s d => OPENAI_NON_200_RESPONSE s d
  | ZeroxError.encodeImageError m => m
  | ZeroxError.malformedResponse => "KeyError"
  | ZeroxError.completionError m => m

/-- Source `OpenAI.completion`: build the messages first (awaited before
anything else), then validate `llm_params or {}`, then issue the request
inside the `try` block, wrapping only request-phase failures in the
generic `Exception(Messages.OPENAI_COMPLETION_ERROR.format(err))`. -/
def completion (encode : String → Except ZeroxError String)
    (transport : HttpRequest → HttpResponse) (api_key : String)
    (image_path : String) (maintain_format : Bool) (prior_page : String)
    (model : String) (llm_params : Option Dict) :
    Except ZeroxError (Json × Json × Json) :=
  match prepare_messages encode image_path maintain_format prior_page with
  | Except.error e => Except.error e
  | Except.ok messages =>
    match validate_llm_params (llm_params.getD []) with
    | Except.error e => Except.error e
    | Except.ok _validated_llm_params =>
      match make_request transport api_key messages model with
      | Except.error err =>
          Except.error (ZeroxError.completionError
            (OPENAI_COMPLETION_ERROR (errMessage err)))
      | Except.ok response => Except.ok response

/-- A fragment of the Python heap for the frame analysis of
`validate_llm_params`: dict objects located at addresses, plus the next
fresh address. -/
structure Heap where
  mem : Nat → Option Dict
  next : Nat

/-- Heap well-formedness: nothing is allocated at or above `next`. -/
def Heap.wf (h : Heap) : Prop := ∀ a, h.next ≤ a → h.mem a = none

/-- Source `OpenAI.validate_llm_params` viewed as an operation on the
Python heap: the shared class attribute `DEFAULT_LLM_PARAMS` and the
candidate dict of the caller are read through their references, and the merge
`{**defaults, **params}` allocates a fresh dict; no statement of the
source assigns through either input reference.  The fallback branch
(a dangling reference) cannot arise in the source and is excluded by the
hypotheses of the theorem about this definition. -/
def validate_llm_params_ref (h : Heap) (dAddr pAddr : Nat) :
    Except ZeroxError Nat × Heap :=
  match h.mem dAddr, h.mem pAddr with
  | some defaults, some params =>
      let invalid := invalid_keys_of defaults params
      if invalid = [] then
        (Except.ok h.next,
         ⟨fun a => if a = h.next then some (dictMerge defaults params) else h.mem a,
          h.next + 1⟩)
      else
        (Except.error (ZeroxError.invalidLLMParams
          ("Invalid LLM parameters: " ++ String.intercalate ", " invalid)), h)
  | _, _ => (Except.error ZeroxError.malformedResponse, h)

/-- Lookup distributes over append: the left list is consulted first. -/
theorem dlookup_append (l₁ l₂ : Dict) (k : String) :
    dlookup (l₁ ++ l₂) k =
      match dlookup l₁ k with
      | some v => some v
      | none => dlookup l₂ k := by
  induction l₁ with
  | nil => simp [dlookup]
  | cons kv rest ih =>
    rcases kv with ⟨k₁, v⟩
    by_cases h : k₁ = k <;> simp [dlookup, h, ih]

/-- Lookup in the override-mapped copy of `a` used by `dictMerge`. -/
theorem dlookup_map_override (a b : Dict) (k : String) :
    dlookup (a.map (fun kv => (kv.1, (dlookup b kv.1).getD kv.2))) k =
      (dlookup a k).map (fun v => (dlookup b k).getD v) := by
  induction a with
  | nil => simp [dlookup]
  | cons kv rest ih =>
    rcases kv with ⟨k₁, v⟩
    by_cases h : k₁ = k
    · subst h; simp [dlookup]
    · simp [dlookup, h, ih]

/-- Lookup in a filter whose predicate depends only on the key. -/
theorem dlookup_filter_key (b : Dict) (p : String → Bool) (k : String) :
    dlookup (b.filter (fun kv => p kv.1)) k =
      if p k then dlookup b k else none := by
  induction b with
  | nil => simp [dlookup]
  | cons kv rest ih =>
    rcases kv with ⟨k₁, v⟩
    by_cases hk : k₁ = k
    · subst hk
      by_cases hp : p k₁ <;> simp [dlookup, hp, ih]
    · by_cases hp : p k₁ <;> simp [dlookup, hp, hk, ih]

/-- Lookup in a Python dict-unpacking merge: the right dict wins, the left
dict fills in. -/
theorem dlookup_dictMerge (a b : Dict) (k : String) :
    dlookup (dictMerge a b) k =
      match dlookup b k with
      | some v => some v
      | none => dlookup a k := by
  unfold dictMerge
  rw [dlookup_append, dlookup_map_override,
    dlookup_filter_key b (fun k => (dlookup a k).isNone) k]
  cases ha : dlookup a k <;> cases hb : dlookup b k <;> simp [ha, hb]

/-- Every allowed key has a default value. -/
theorem dlookup_default_isSome (k : String) (hk : k ∈ valid_keys) :
    (dlookup DEFAULT_LLM_PARAMS k).isSome = true := by
  fin_cases hk <;> rfl

/-- C2: for every parameter mapping whose keys are all allowed,
`validate_llm_params` succeeds and returns the defaults overridden
key-by-key by the supplied mapping: every supplied key maps to the
supplied value, every unsupplied allowed key keeps its default, and every
allowed key is present in the result. -/
theorem validate_llm_params_merge (params : Dict)
    (hvalid : ∀ k ∈ params.map Prod.fst, k ∈ valid_keys) :
    validate_llm_params params =
      Except.ok (dictMerge DEFAULT_LLM_PARAMS params) ∧
    (∀ k v, dlookup params k = some v →
      dlookup (dictMerge DEFAULT_LLM_PARAMS params) k = some v) ∧
    (∀ k, k ∈ valid_keys → dlookup params k = none →
      dlookup (dictMerge DEFAULT_LLM_PARAMS params) k =
        dlookup DEFAULT_LLM_PARAMS k) ∧
    (∀ k, k ∈ valid_keys →
      (dlookup (dictMerge DEFAULT_LLM_PARAMS params) k).isSome = true) := by
  have hinv : invalid_keys_of DEFAULT_LLM_PARAMS params = [] := by
    unfold invalid_keys_of
    rw [List.dedup_eq_nil, List.filter_eq_nil_iff]
    intro k hk
    have := hvalid k hk
    simp only [valid_keys] at this
    simp [List.elem_iff, this]
  refine ⟨?_, ?_, ?_, ?_⟩
  · unfold validate_llm_params
    rw [hinv]
    rfl
  · intro k v hkv
    rw [dlookup_dictMerge]
    simp [hkv]
  · intro k _ hnone
    rw [dlookup_dictMerge]
    simp [hnone]
  · intro k hk
    rw [dlookup_dictMerge]
    cases hp : dlookup params k
    · simpa using dlookup_default_isSome k hk
    · simp

/-- C2 witness: supplying only `temperature` keeps every other default and
overrides `temperature`. -/
theorem validate_llm_params_merge_witness :
    validate_llm_params [("temperature", Json.num 1)] =
      Except.ok (dictMerge DEFAULT_LLM_PARAMS [("temperature", Json.num 1)]) ∧
    dlookup (dictMerge DEFAULT_LLM_PARAMS [("temperature", Json.num 1)])
      "temperature" = some (Json.num 1) ∧
    dlookup (dictMerge DEFAULT_LLM_PARAMS [("temperature", Json.num 1)])
      "max_tokens" = some (Json.num 1000) := by
  have h := validate_llm_params_merge [("temperature", Json.num 1)]
    (by intro k hk; simp at hk; subst hk; simp [valid_keys, DEFAULT_LLM_PARAMS])
  refine ⟨h.1, h.2.1 "temperature" (Json.num 1) rfl, ?_⟩
  have h3 := h.2.2.1 "max_tokens" (by simp [valid_keys, DEFAULT_LLM_PARAMS]) (by rfl)
  rw [h3]
  rfl

/-- C3: for every parameter mapping with at least one key outside the
allowed set, `validate_llm_params` fails with `InvalidLLMParamsException`
whose comma-joined message names every offending key (the offending-key
list is duplicate-free, in the deterministic order the embedding gives the
Python set difference, and contains exactly the disallowed keys). -/
theorem validate_llm_params_invalid (params : Dict)
    (hbad : ∃ k, k ∈ params.map Prod.fst ∧ k ∉ valid_keys) :
    invalid_keys_of DEFAULT_LLM_PARAMS params ≠ [] ∧
    (invalid_keys_of DEFAULT_LLM_PARAMS params).Nodup ∧
    (∀ k, k ∈ invalid_keys_of DEFAULT_LLM_PARAMS params ↔
      (k ∈ params.map Prod.fst ∧ k ∉ valid_keys)) ∧
    validate_llm_params params =
      Except.error (ZeroxError.invalidLLMParams
        ("Invalid LLM parameters: " ++ String.intercalate ", "
          (invalid_keys_of DEFAULT_LLM_PARAMS params))) := by
  have hmem : ∀ k, k ∈ invalid_keys_of DEFAULT_LLM_PARAMS params ↔
      (k ∈ params.map Prod.fst ∧ k ∉ valid_keys) := by
    intro k
    unfold invalid_keys_of
    rw [List.mem_dedup, List.mem_filter]
    simp [List.elem_iff, valid_keys]
  have hne : invalid_keys_of DEFAULT_LLM_PARAMS params ≠ [] := by
    obtain ⟨k, hk1, hk2⟩ := hbad
    exact List.ne_nil_of_mem ((hmem k).mpr ⟨hk1, hk2⟩)
  refine ⟨hne, List.nodup_dedup _, hmem, ?_⟩
  unfold validate_llm_params
  rw [if_neg hne]

/-- C3 witness: two disallowed keys are both named in the error message. -/
theorem validate_llm_params_invalid_witness :
    validate_llm_params
      [("bogus", Json.num 1), ("temperature", Json.num 0), ("nope", Json.null)] =
      Except.error (ZeroxError.invalidLLMParams
        "Invalid LLM parameters: bogus, nope") := by
  have h := (validate_llm_params_invalid
    [("bogus", Json.num 1), ("temperature", Json.num 0), ("nope", Json.null)]
    ⟨"bogus", by simp, by simp [valid_keys, DEFAULT_LLM_PARAMS]⟩).2.2.2
  rw [h]
  rfl

/-- C1: when the image encoder succeeds, `prepare_messages` returns the
fixed order base-system message, then (exactly when `maintain_format` is
true and `prior_page` is non-empty) a second system message embedding
`prior_page` verbatim, and last a user message whose sole content part is
an `image_url` referencing the base64 data URI: 3 messages in the first
case and 2 otherwise. -/
theorem prepare_messages_spec (encode : String → Except ZeroxError String)
    (image_path prior_page b64 : String) (maintain_format : Bool)
    (henc : encode image_path = Except.ok b64) :
    user_image_message b64 =
      Json.obj
        [("role", Json.str "user"),
         ("content", Json.arr
           [Json.obj
             [("type", Json.str "image_url"),
              ("image_url", Json.obj
                [("url", Json.str ("data:image/png;base64," ++ b64))])]])] ∧
    (maintain_format = true → prior_page ≠ "" →
      prepare_messages encode image_path maintain_format prior_page =
        Except.ok
          [Json.obj [("role", Json.str "system"),
                     ("content", Json.str system_prompt)],
           Json.obj [("role", Json.str "system"),
                     ("content", Json.str (maintain_format_content prior_page))],
           user_image_message b64] ∧
      (∃ pre post, maintain_format_content prior_page =
        pre ++ prior_page ++ post)) ∧
    (¬(maintain_format = true ∧ prior_page ≠ "") →
      prepare_messages encode image_path maintain_format prior_page =
        Except.ok
          [Json.obj [("role", Json.str "system"),
                     ("content", Json.str system_prompt)],
           user_image_message b64]) := by
  refine ⟨rfl, ?_, ?_⟩
  · intro hmf hpp
    refine ⟨?_, ⟨"Markdown must maintain consistent formatting with the following page: \n\n \"\"\"", "\"\"\"", rfl⟩⟩
    simp only [prepare_messages]
    rw [if_pos ⟨hmf, hpp⟩, henc]
    rfl
  · intro hneg
    simp only [prepare_messages]
    rw [if_neg hneg, henc]
    rfl

/-- C1 witness: with a mocked encoder, `maintain_format` true and a
non-empty prior page give three messages; `maintain_format` false and an
empty prior page give two. -/
theorem prepare_messages_spec_witness :
    prepare_messages (fun _ => Except.ok "QUJD") "page.png" true "Hello" =
      Except.ok
        [Json.obj [("role", Json.str "system"),
                   ("content", Json.str system_prompt)],
         Json.obj [("role", Json.str "system"),
                   ("content", Json.str (maintain_format_content "Hello"))],
         user_image_message "QUJD"] ∧
    prepare_messages (fun _ => Except.ok "QUJD") "page.png" false "" =
      Except.ok
        [Json.obj [("role", Json.str "system"),
                   ("content", Json.str system_prompt)],
         user_image_message "QUJD"] :=
  ⟨((prepare_messages_spec (fun _ => Except.ok "QUJD") "page.png" "Hello" "QUJD"
      true rfl).2.1 rfl (by decide)).1,
   (prepare_messages_spec (fun _ => Except.ok "QUJD") "page.png" "" "QUJD"
      false rfl).2.2 (by simp)⟩

/-- C4: for every 200 response whose parsed body yields
`choices[0].message.content`, `usage.prompt_tokens` and
`usage.completion_tokens`, `make_request` returns exactly those three
values as the completion result. -/
theorem make_request_success (transport : HttpRequest → HttpResponse)
    (api_key model : String) (messages : List Json)
    (data content ptoks ctoks : Json)
    (hresp : transport (openai_request api_key messages model) = ⟨200, data⟩)
    (hcontent : ((data.getField "choices").bind (fun c => c.getIdx 0)
        |>.bind (fun c => c.getField "message")
        |>.bind (fun c => c.getField "content")) = some content)
    (hptoks : ((data.getField "usage").bind
        (fun u => u.getField "prompt_tokens")) = some ptoks)
    (hctoks : ((data.getField "usage").bind
        (fun u => u.getField "completion_tokens")) = some ctoks) :
    make_request transport api_key messages model =
      Except.ok (content, ptoks, ctoks) := by
  unfold make_request
  rw [hresp]
  simp [hcontent, hptoks, hctoks]

/-- C4 witness: the mocked 200 response of the spec yields content
`"# Title"`, 10 input tokens and 5 output tokens. -/
theorem make_request_success_witness :
    make_request
      (fun _ => ⟨200,
        Json.obj
          [("choices", Json.arr
             [Json.obj [("message", Json.obj [("content", Json.str "# Title")])]]),
           ("usage", Json.obj
             [("prompt_tokens", Json.num 10), ("completion_tokens", Json.num 5)])]⟩)
      "key" [] "gpt-4o-mini" =
      Except.ok (Json.str "# Title", Json.num 10, Json.num 5) :=
  make_request_success _ "key" "gpt-4o-mini" [] _ _ _ _ rfl rfl rfl rfl

/-- C5: for every response whose status is not 200, `make_request` fails
with the non-success error carrying the status code and the full parsed
body, and returns no result. -/
theorem make_request_non200 (transport : HttpRequest → HttpResponse)
    (api_key model : String) (messages : List Json)
    (status : Nat) (data : Json)
    (hresp : transport (openai_request api_key messages model) = ⟨status, data⟩)
    (hstatus : status ≠ 200) :
    make_request transport api_key messages model =
      Except.error (ZeroxError.nonSuccessResponse status data) := by
  unfold make_request
  rw [hresp]
  simp [hstatus]

/-- C5 witness: a mocked 429 response fails with the non-success error
carrying status 429 and the body. -/
theorem make_request_non200_witness :
    make_request (fun _ => ⟨429, Json.null⟩) "key" [] "gpt-4o-mini" =
      Except.error (ZeroxError.nonSuccessResponse 429 Json.null) :=
  make_request_non200 _ "key" "gpt-4o-mini" [] 429 Json.null rfl (by decide)

/-- C6: the outgoing JSON body holds exactly the two fields `messages` and
`model`; no validated LLM parameter key ever appears in it; and the result
of `make_request` depends on the transport only through its answer to this
one request. -/
theorem make_request_body_exact (api_key model : String)
    (messages : List Json) :
    (openai_request api_key messages model).body =
      Json.obj [("messages", Json.arr messages), ("model", Json.str model)] ∧
    (∀ k, ((openai_request api_key messages model).body.getField k).isSome =
        true ↔ (k = "messages" ∨ k = "model")) ∧
    (∀ k, k ∈ valid_keys →
      (openai_request api_key messages model).body.getField k = none) ∧
    (∀ t₁ t₂ : HttpRequest → HttpResponse,
      t₁ (openai_request api_key messages model) =
        t₂ (openai_request api_key messages model) →
      make_request t₁ api_key messages model =
        make_request t₂ api_key messages model) := by
  refine ⟨rfl, ?_, ?_, ?_⟩
  · intro k
    by_cases h1 : k = "messages"
    · subst h1; simp [openai_request, Json.getField, dlookup]
    · by_cases h2 : k = "model"
      · subst h2; simp [openai_request, Json.getField, dlookup]
      · have n1 : "messages" ≠ k := fun h => h1 h.symm
        have n2 : "model" ≠ k := fun h => h2 h.symm
        simp [openai_request, Json.getField, dlookup, n1, n2, h1, h2]
  · intro k hk
    fin_cases hk <;> rfl
  · intro t₁ t₂ h
    unfold make_request
    rw [h]

/-- C6 witness: no `temperature` field in the body, and two transports
agreeing on the single request give the same result. -/
theorem make_request_body_exact_witness :
    (openai_request "key" [] "gpt-4o-mini").body.getField "temperature" =
      none ∧
    make_request (fun _ => ⟨200, Json.null⟩) "key" [] "gpt-4o-mini" =
      make_request (fun _ => ⟨100 + 100, Json.null⟩) "key" [] "gpt-4o-mini" :=
  ⟨(make_request_body_exact "key" "gpt-4o-mini" []).2.2.1 "temperature"
      (by simp [valid_keys, DEFAULT_LLM_PARAMS]),
   (make_request_body_exact "key" "gpt-4o-mini" []).2.2.2 _ _ rfl⟩

/-- C7 counterexample: an empty explicit key IS returned as the
credential, even while the environment variable holds a non-empty value;
the source tests only for `None`, never for emptiness. -/
theorem get_api_key_empty_counterexample :
    get_api_key
      (fun v => if v = "OPENAI_API_KEY" then some "envkey" else none)
      (some "") = Except.ok "" := rfl

/-- C7 amended: if an explicit key is supplied (any string, even empty) it
is returned unchanged regardless of the environment; otherwise, if the
environment variable is set (to any value, even empty) that value is
returned; otherwise the call fails with the missing-key error.  The code
checks presence (`None`) only, never emptiness. -/
theorem get_api_key_spec (env : String → Option String) (k : String) :
    get_api_key env (some k) = Except.ok k ∧
    (∀ v, env "OPENAI_API_KEY" = some v →
      get_api_key env none = Except.ok v) ∧
    (env "OPENAI_API_KEY" = none →
      get_api_key env none = Except.error ZeroxError.missingApiKey) := by
  refine ⟨rfl, ?_, ?_⟩
  · intro v hv
    simp only [get_api_key]
    rw [hv]
  · intro hv
    simp only [get_api_key]
    rw [hv]

/-- C7 amended witness: with the variable set the environment value is
returned; with it unset the call fails. -/
theorem get_api_key_spec_witness :
    get_api_key (fun _ => some "envkey") none = Except.ok "envkey" ∧
    get_api_key (fun _ => none) none =
      Except.error ZeroxError.missingApiKey :=
  ⟨(get_api_key_spec (fun _ => some "envkey") "x").2.1 "envkey" rfl,
   (get_api_key_spec (fun _ => none) "x").2.2 rfl⟩

/-- C8 counterexample: with an unreadable image AND an unknown parameter
key, `completion` fails with the image-encoding error, not with
`InvalidLLMParamsException`: the source awaits `_prepare_messages` (which
invokes the encoder) before calling `validate_llm_params`. -/
theorem completion_order_counterexample :
    completion (fun _ => Except.error (ZeroxError.encodeImageError "unreadable image"))
      (fun _ => ⟨200, Json.null⟩) "key" "page.png" false "" "gpt-4o-mini"
      (some [("bogus", Json.num 1)]) =
      Except.error (ZeroxError.encodeImageError "unreadable image") := rfl

/-- C8 amended: `completion` performs message construction (with the image
encoding) first, then parameter validation, then the remote request: an
image-encoding failure propagates even when the parameters hold unknown
keys, and when encoding succeeds an unknown key fails with
`InvalidLLMParamsException` without the remote request being issued (the
result is the same for every transport). -/
theorem completion_order (encode : String → Except ZeroxError String)
    (transport : HttpRequest → HttpResponse)
    (api_key image_path prior_page model : String)
    (maintain_format : Bool) (llm_params : Option Dict) :
    (∀ e, encode image_path = Except.error e →
      completion encode transport api_key image_path maintain_format
        prior_page model llm_params = Except.error e) ∧
    (∀ b64, encode image_path = Except.ok b64 →
      invalid_keys_of DEFAULT_LLM_PARAMS (llm_params.getD []) ≠ [] →
      completion encode transport api_key image_path maintain_format
          prior_page model llm_params =
        Except.error (ZeroxError.invalidLLMParams
          ("Invalid LLM parameters: " ++ String.intercalate ", "
            (invalid_keys_of DEFAULT_LLM_PARAMS (llm_params.getD [])))) ∧
      (∀ transport₂,
        completion encode transport api_key image_path maintain_format
          prior_page model llm_params =
        completion encode transport₂ api_key image_path maintain_format
          prior_page model llm_params)) := by
  constructor
  · intro e he
    have hprep : prepare_messages encode image_path maintain_format
        prior_page = Except.error e := by
      simp only [prepare_messages]
      rw [he]
    unfold completion
    rw [hprep]
  · intro b64 hb64 hinv
    have hval : validate_llm_params (llm_params.getD []) =
        Except.error (ZeroxError.invalidLLMParams
          ("Invalid LLM parameters: " ++ String.intercalate ", "
            (invalid_keys_of DEFAULT_LLM_PARAMS (llm_params.getD [])))) := by
      unfold validate_llm_params
      rw [if_neg hinv]
    have hprep : ∀ ms, prepare_messages encode image_path maintain_format
        prior_page = Except.ok ms →
        completion encode transport api_key image_path maintain_format
          prior_page model llm_params =
        Except.error (ZeroxError.invalidLLMParams
          ("Invalid LLM parameters: " ++ String.intercalate ", "
            (invalid_keys_of DEFAULT_LLM_PARAMS (llm_params.getD [])))) := by
      intro ms hms
      unfold completion
      rw [hms, hval]
    have hok : ∃ ms, prepare_messages encode image_path maintain_format
        prior_page = Except.ok ms := by
      simp only [prepare_messages]
      rw [hb64]
      exact ⟨_, rfl⟩
    obtain ⟨ms, hms⟩ := hok
    refine ⟨hprep ms hms, ?_⟩
    intro transport₂
    rw [hprep ms hms]
    unfold completion
    rw [hms, hval]

/-- C8 amended witness: an unreadable image with a bogus parameter key
yields the encoding error; a readable image with a bogus key yields the
parameter error under either of two transports. -/
theorem completion_order_witness :
    completion (fun _ => Except.error (ZeroxError.encodeImageError "bad"))
      (fun _ => ⟨200, Json.null⟩) "key" "page.png" false "" "gpt-4o-mini"
      (some [("bogus", Json.num 1)]) =
      Except.error (ZeroxError.encodeImageError "bad") ∧
    completion (fun _ => Except.ok "QUJD")
      (fun _ => ⟨200, Json.null⟩) "key" "page.png" false "" "gpt-4o-mini"
      (some [("bogus", Json.num 1)]) =
      Except.error (ZeroxError.invalidLLMParams
        ("Invalid LLM parameters: " ++ String.intercalate ", "
          (invalid_keys_of DEFAULT_LLM_PARAMS [("bogus", Json.num 1)]))) ∧
    completion (fun _ => Except.ok "QUJD")
      (fun _ => ⟨200, Json.null⟩) "key" "page.png" false "" "gpt-4o-mini"
      (some [("bogus", Json.num 1)]) =
    completion (fun _ => Except.ok "QUJD")
      (fun _ => ⟨500, Json.null⟩) "key" "page.png" false "" "gpt-4o-mini"
      (some [("bogus", Json.num 1)]) :=
  ⟨(completion_order (fun _ => Except.error (ZeroxError.encodeImageError "bad"))
      (fun _ => ⟨200, Json.null⟩) "key" "page.png" "" "gpt-4o-mini" false
      (some [("bogus", Json.num 1)])).1 _ rfl,
   ((completion_order (fun _ => Except.ok "QUJD")
      (fun _ => ⟨200, Json.null⟩) "key" "page.png" "" "gpt-4o-mini" false
      (some [("bogus", Json.num 1)])).2 "QUJD" rfl (by decide)).1,
   ((completion_order (fun _ => Except.ok "QUJD")
      (fun _ => ⟨200, Json.null⟩) "key" "page.png" "" "gpt-4o-mini" false
      (some [("bogus", Json.num 1)])).2 "QUJD" rfl (by decide)).2 _⟩

/-- C9: a failure of the request step is wrapped in the generic completion
error embedding the message of the underlying cause; failures of message
construction (the image encoder) and of parameter validation propagate
unwrapped; and a result is returned only when every step succeeds. -/
theorem completion_error_wrapping (encode : String → Except ZeroxError String)
    (transport : HttpRequest → HttpResponse)
    (api_key image_path prior_page model : String)
    (maintain_format : Bool) (llm_params : Option Dict) :
    (∀ e, encode image_path = Except.error e →
      completion encode transport api_key image_path maintain_format
        prior_page model llm_params = Except.error e) ∧
    (∀ ms e, prepare_messages encode image_path maintain_format prior_page =
        Except.ok ms →
      validate_llm_params (llm_params.getD []) = Except.error e →
      completion encode transport api_key image_path maintain_format
        prior_page model llm_params = Except.error e) ∧
    (∀ ms ps err, prepare_messages encode image_path maintain_format
        prior_page = Except.ok ms →
      validate_llm_params (llm_params.getD []) = Except.ok ps →
      make_request transport api_key ms model = Except.error err →
      completion encode transport api_key image_path maintain_format
          prior_page model llm_params =
        Except.error (ZeroxError.completionError
          (OPENAI_COMPLETION_ERROR (errMessage err))) ∧
      (∃ pre post, OPENAI_COMPLETION_ERROR (errMessage err) =
        pre ++ errMessage err ++ post)) ∧
    (∀ ms ps r, prepare_messages encode image_path maintain_format
        prior_page = Except.ok ms →
      validate_llm_params (llm_params.getD []) = Except.ok ps →
      make_request transport api_key ms model = Except.ok r →
      completion encode transport api_key image_path maintain_format
        prior_page model llm_params = Except.ok r) := by
  refine ⟨?_, ?_, ?_, ?_⟩
  · intro e he
    have hprep : prepare_messages encode image_path maintain_format
        prior_page = Except.error e := by
      simp only [prepare_messages]
      rw [he]
    unfold completion
    rw [hprep]
  · intro ms e hms hval
    unfold completion
    rw [hms, hval]
  · intro ms ps err hms hval hreq
    refine ⟨?_, ⟨"Error in OpenAI completion: ", "", by simp [OPENAI_COMPLETION_ERROR]⟩⟩
    unfold completion
    rw [hms, hval]
    dsimp only
    rw [hreq]
  · intro ms ps r hms hval hreq
    unfold completion
    rw [hms, hval]
    dsimp only
    rw [hreq]

/-- C9 witness: a mocked 500 transport makes `completion` fail with the
generic wrapper embedding the message of the non-success cause, while a failing
encoder propagates its own error unwrapped. -/
theorem completion_error_wrapping_witness :
    completion (fun _ => Except.ok "QUJD") (fun _ => ⟨500, Json.null⟩)
      "key" "page.png" false "" "gpt-4o-mini" none =
      Except.error (ZeroxError.completionError
        (OPENAI_COMPLETION_ERROR
          (errMessage (ZeroxError.nonSuccessResponse 500 Json.null)))) ∧
    completion (fun _ => Except.error (ZeroxError.encodeImageError "io error"))
      (fun _ => ⟨500, Json.null⟩) "key" "page.png" false "" "gpt-4o-mini" none =
      Except.error (ZeroxError.encodeImageError "io error") :=
  ⟨((completion_error_wrapping (fun _ => Except.ok "QUJD")
      (fun _ => ⟨500, Json.null⟩) "key" "page.png" "" "gpt-4o-mini" false
      none).2.2.1 _ _ (ZeroxError.nonSuccessResponse 500 Json.null) rfl rfl
      (make_request_non200 _ "key" "gpt-4o-mini" _ 500 Json.null rfl
        (by decide))).1,
   (completion_error_wrapping
      (fun _ => Except.error (ZeroxError.encodeImageError "io error"))
      (fun _ => ⟨500, Json.null⟩) "key" "page.png" "" "gpt-4o-mini" false
      none).1 _ rfl⟩

/-- C10: `validate_llm_params`, run on the Python heap, leaves the shared
`DEFAULT_LLM_PARAMS` object and the candidate object of the caller unchanged
(indeed every previously allocated object), and on success returns a
freshly allocated dict, distinct from both inputs, holding the merge; its
outcome agrees with the pure `validate_llm_params`, so repeated calls with
equal inputs yield equal results. -/
theorem validate_llm_params_frame (h : Heap) (dAddr pAddr : Nat)
    (d p : Dict) (hwf : Heap.wf h)
    (hd : h.mem dAddr = some d) (hp : h.mem pAddr = some p) :
    (validate_llm_params_ref h dAddr pAddr).2.mem dAddr = some d ∧
    (validate_llm_params_ref h dAddr pAddr).2.mem pAddr = some p ∧
    (∀ a, a < h.next →
      (validate_llm_params_ref h dAddr pAddr).2.mem a = h.mem a) ∧
    (d = DEFAULT_LLM_PARAMS →
      (∀ r, validate_llm_params p = Except.ok r →
        (validate_llm_params_ref h dAddr pAddr).1 = Except.ok h.next ∧
        dAddr ≠ h.next ∧ pAddr ≠ h.next ∧
        (validate_llm_params_ref h dAddr pAddr).2.mem h.next = some r) ∧
      (∀ e, validate_llm_params p = Except.error e →
        (validate_llm_params_ref h dAddr pAddr).1 = Except.error e ∧
        (validate_llm_params_ref h dAddr pAddr).2 = h)) := by
  have hdlt : dAddr < h.next := by
    by_contra hc
    rw [hwf dAddr (Nat.le_of_not_lt hc)] at hd
    exact Option.noConfusion hd
  have hplt : pAddr < h.next := by
    by_contra hc
    rw [hwf pAddr (Nat.le_of_not_lt hc)] at hp
    exact Option.noConfusion hp
  have hframe : ∀ a, a < h.next →
      (validate_llm_params_ref h dAddr pAddr).2.mem a = h.mem a := by
    intro a ha
    unfold validate_llm_params_ref
    rw [hd, hp]
    dsimp only
    split
    · dsimp only
      rw [if_neg (by omega)]
    · rfl
  refine ⟨(hframe dAddr hdlt).trans hd, ?_, hframe, ?_⟩
  · rw [hframe pAddr hplt]
    exact hp
  · intro hdd
    subst hdd
    constructor
    · intro r hr
      have hinv : invalid_keys_of DEFAULT_LLM_PARAMS p = [] := by
        by_contra hc
        unfold validate_llm_params at hr
        rw [if_neg hc] at hr
        exact Except.noConfusion hr
      have hrm : r = dictMerge DEFAULT_LLM_PARAMS p := by
        unfold validate_llm_params at hr
        rw [if_pos hinv] at hr
        exact (Except.ok.inj hr).symm
      unfold validate_llm_params_ref
      rw [hd, hp]
      dsimp only
      rw [if_pos hinv]
      refine ⟨rfl, by omega, by omega, ?_⟩
      dsimp only
      rw [if_pos rfl, hrm]
    · intro e he
      have hinv : invalid_keys_of DEFAULT_LLM_PARAMS p ≠ [] := by
        intro hc
        unfold validate_llm_params at he
        rw [if_pos hc] at he
        exact Except.noConfusion he
      have hem : e = ZeroxError.invalidLLMParams
          ("Invalid LLM parameters: " ++ String.intercalate ", "
            (invalid_keys_of DEFAULT_LLM_PARAMS p)) := by
        unfold validate_llm_params at he
        rw [if_neg hinv] at he
        exact (Except.error.inj he).symm
      unfold validate_llm_params_ref
      rw [hd, hp]
      dsimp only
      rw [if_neg hinv, hem]
      exact ⟨rfl, rfl⟩

/-- C10 witness: on a concrete two-object heap the defaults object and the
candidate object survive the call unchanged and the merge lands at the
fresh address. -/
theorem validate_llm_params_frame_witness :
    (validate_llm_params_ref
      ⟨fun a => if a = 0 then some DEFAULT_LLM_PARAMS
                else if a = 1 then some [("temperature", Json.num 1)]
                else none, 2⟩ 0 1).2.mem 0 = some DEFAULT_LLM_PARAMS ∧
    (validate_llm_params_ref
      ⟨fun a => if a = 0 then some DEFAULT_LLM_PARAMS
                else if a = 1 then some [("temperature", Json.num 1)]
                else none, 2⟩ 0 1).2.mem 1 =
        some [("temperature", Json.num 1)] ∧
    (validate_llm_params_ref
      ⟨fun a => if a = 0 then some DEFAULT_LLM_PARAMS
                else if a = 1 then some [("temperature", Json.num 1)]
                else none, 2⟩ 0 1).2.mem 2 =
        some (dictMerge DEFAULT_LLM_PARAMS [("temperature", Json.num 1)]) := by
  have hwf : Heap.wf
      ⟨fun a => if a = 0 then some DEFAULT_LLM_PARAMS
                else if a = 1 then some [("temperature", Json.num 1)]
                else none, 2⟩ := by
    intro a ha
    have ha2 : (2 : Nat) ≤ a := ha
    dsimp only
    rw [if_neg (by omega), if_neg (by omega)]
  have h := validate_llm_params_frame
    ⟨fun a => if a = 0 then some DEFAULT_LLM_PARAMS
              else if a = 1 then some [("temperature", Json.num 1)]
              else none, 2⟩ 0 1 DEFAULT_LLM_PARAMS
    [("temperature", Json.num 1)] hwf rfl rfl
  refine ⟨h.1, h.2.1, ?_⟩
  exact ((h.2.2.2 rfl).1
    (dictMerge DEFAULT_LLM_PARAMS [("temperature", Json.num 1)]) (by rfl)).2.2.2
